import Mathlib

/-!
Shallow embedding of `install_cosmo_outer.py` (cosmo-installer).

The program provisions a fixed topology of OpenStack networking resources
(network, subnet, external network, router, two security groups) through a
generic "create-or-ensure-exists" reconciler.  The cloud control plane is
modelled as an explicit state (`Cloud`): mocked list stores keyed by name,
a deterministic id supply for create calls, a failure-injection switch for
router-interface attachment, and an append-only trace of the create calls the
program submits.  Exceptions (`OpenStackLogicError` and adapter errors) are
modelled with `Except String`; the logger calls of the source are pure
observability and are omitted.
-/

/-- A single quote character, used in the error-message formats of the source
(`"{0} '{1}' already exists"` and friends). -/
def sglQuote : String := String.singleton (Char.ofNat 39)

/-- A listed cloud object; the source only ever reads its `id` field. -/
structure Obj where
  id : String
deriving DecidableEq, Repr

/-- A nova security group as returned by `security_groups.list()`: the source
reads `sg.id` and `sg.name`. -/
structure SG where
  id : String
  name : String
deriving DecidableEq, Repr

/-- The payload of `neutron_client.create_network`, as built by
`OpenStackNetworkCreator.create`: `name`, `admin_state_up`, `router:external`. -/
structure NetworkPayload where
  name : String
  admin_state_up : Bool
  router_external : Bool
deriving DecidableEq, Repr

/-- The payload of `neutron_client.create_subnet`, as built by
`OpenStackSubnetCreator.create`. -/
structure SubnetPayload where
  name : String
  ip_version : Nat
  cidr : String
  network_id : String
deriving DecidableEq, Repr

/-- The `external_gateway_info` dict: `{"network_id": ...}`. -/
structure ExternalGatewayInfo where
  network_id : String
deriving DecidableEq, Repr

/-- One router interface descriptor: `{'subnet_id': ...}`. -/
structure RouterInterface where
  subnet_id : String
deriving DecidableEq, Repr

/-- The payload of `neutron_client.create_router`: `name`, `admin_state_up`,
and the `external_gateway_info` key which is only present when the argument is
truthy. -/
structure RouterPayload where
  name : String
  admin_state_up : Bool
  external_gateway_info : Option ExternalGatewayInfo
deriving DecidableEq, Repr

/-- One entry of the `rules` list passed to
`OpenStackSecurityGroupCreator.create`: a dict with key `port` and optionally
`cidr` / `group_id` (absent keys read back as `None` via `rule.get`). -/
structure SecurityRule where
  port : Nat
  cidr : Option String
  group_id : Option String
deriving DecidableEq, Repr

/-- One create-side call submitted to the cloud adapter, recorded in order. -/
inductive CloudEvent where
  | create_network (payload : NetworkPayload) (retId : String)
  | create_subnet (payload : SubnetPayload) (retId : String)
  | create_router (payload : RouterPayload) (retId : String)
  | add_interface_router (routerId : String) (body : RouterInterface)
  | sg_create (name : String) (description : String) (retId : String)
  | sg_rule_create (parent_group_id : String) (ip_protocol : String)
      (from_port : Nat) (to_port : Nat) (cidr : Option String)
      (group_id : Option String)
deriving DecidableEq, Repr

/-- The mocked cloud control plane: list stores keyed by name, a deterministic
supply of ids for create calls, a per-call success switch for
`add_interface_router` (to inject adapter failures), and the trace of create
calls made so far. -/
structure Cloud where
  supply : Nat → String
  counter : Nat
  networksByName : String → List Obj
  subnetsByName : String → List Obj
  routersByName : String → List Obj
  security_groups : List SG
  add_interface_ok : String → RouterInterface → Bool
  events : List CloudEvent

/-- Draw the next id from the supply. -/
def Cloud.freshId (c : Cloud) : Cloud × String :=
  ({ c with counter := c.counter + 1 }, c.supply c.counter)

/-- `neutron_client.list_networks(name=name)['networks']`. -/
def neutron_list_networks (c : Cloud) (name : String) : List Obj :=
  c.networksByName name

/-- `neutron_client.list_subnets(name=name)['subnets']`. -/
def neutron_list_subnets (c : Cloud) (name : String) : List Obj :=
  c.subnetsByName name

/-- `neutron_client.list_routers(name=name)['routers']`. -/
def neutron_list_routers (c : Cloud) (name : String) : List Obj :=
  c.routersByName name

/-- `nova_client.security_groups.list()`. -/
def nova_security_groups_list (c : Cloud) : List SG :=
  c.security_groups

/-- `neutron_client.create_network(payload)` followed by reading
`ret['network']['id']`. -/
def neutron_create_network (c : Cloud) (p : NetworkPayload) : Cloud × String :=
  let (c1, retId) := c.freshId
  ({ c1 with events := c1.events ++ [CloudEvent.create_network p retId] }, retId)

/-- `neutron_client.create_subnet(payload)` followed by reading
`ret['subnet']['id']`. -/
def neutron_create_subnet (c : Cloud) (p : SubnetPayload) : Cloud × String :=
  let (c1, retId) := c.freshId
  ({ c1 with events := c1.events ++ [CloudEvent.create_subnet p retId] }, retId)

/-- `neutron_client.create_router(args)['router']['id']`. -/
def neutron_create_router (c : Cloud) (p : RouterPayload) : Cloud × String :=
  let (c1, retId) := c.freshId
  ({ c1 with events := c1.events ++ [CloudEvent.create_router p retId] }, retId)

/-- `neutron_client.add_interface_router(router_id, i)`; the mock raises when
the injected switch says so, modelling an adapter error. -/
def neutron_add_interface_router (c : Cloud) (router_id : String)
    (i : RouterInterface) : Cloud × Except String Unit :=
  if c.add_interface_ok router_id i then
    ({ c with events := c.events ++ [CloudEvent.add_interface_router router_id i] },
     Except.ok ())
  else
    (c, Except.error "add_interface_router failed")

/-- `nova_client.security_groups.create(name, description)` followed by
reading `sg.id`. -/
def nova_security_groups_create (c : Cloud) (name description : String) :
    Cloud × String :=
  let (c1, retId) := c.freshId
  ({ c1 with events := c1.events ++ [CloudEvent.sg_create name description retId] },
   retId)

/-- `nova_client.security_group_rules.create(...)` with the keyword arguments
the source passes. -/
def nova_security_group_rules_create (c : Cloud) (parent_group_id : String)
    (ip_protocol : String) (from_port to_port : Nat) (cidr : Option String)
    (group_id : Option String) : Cloud :=
  { c with events := c.events ++
      [CloudEvent.sg_rule_create parent_group_id ip_protocol from_port to_port
        cidr group_id] }

/-- The slice of a resource's config dict that `create_or_ensure_exists`
reads: the `externally_provisioned` key, `none` when the key is absent. -/
structure ResourceConf where
  externally_provisioned : Option Bool
deriving DecidableEq, Repr

/-- Python truthiness of
`'externally_provisioned' in config and config['externally_provisioned']`. -/
def epTruthy (conf : ResourceConf) : Bool :=
  match conf.externally_provisioned with
  | some b => b
  | none => false

/-- `"{0} '{1}' already exists"` of `check_and_create`. -/
def fmt_already_exists (what name : String) : String :=
  what ++ " " ++ sglQuote ++ name ++ sglQuote ++ " already exists"

/-- `"{0} '{1}' was not found"` of `ensure_exists`. -/
def fmt_not_found (what name : String) : String :=
  what ++ " " ++ sglQuote ++ name ++ sglQuote ++ " was not found"

/-- The ambiguous-lookup message format of `find_by_name`, reporting the
kind, the name and the match count. -/
def fmt_ambiguous (what name : String) (n : Nat) : String :=
  "Lookup of " ++ what ++ " named " ++ sglQuote ++ name ++ sglQuote ++
    " failed. There are " ++ toString n ++ " matches."

/-- `CreateOrEnsureExists.find_by_name`, generic over the subclass's `WHAT`
and `list_objects_with_name`: zero hits -> `None`, one hit -> its `id`,
otherwise raise `OpenStackLogicError` with kind, name and hit count. -/
def CreateOrEnsureExists.find_by_name (what : String) (list_objects_with_name : Cloud → String → List Obj)
    (c : Cloud) (name : String) : Except String (Option String) :=
  let founds := list_objects_with_name c name
  match founds with
  | [] => Except.ok none
  | [m] => Except.ok (some m.id)
  | _ => Except.error (fmt_ambiguous what name founds.length)

/-- `CreateOrEnsureExists.check_and_create`, generic over the subclass's
`WHAT`, `list_objects_with_name` and `create` (the latter with its
kind-specific arguments already applied): raise `OpenStackLogicError` when the
listing is truthy (non-empty), otherwise return `self.create(...)`. -/
def CreateOrEnsureExists.check_and_create (what : String)
    (list_objects_with_name : Cloud → String → List Obj)
    (create : Cloud → Cloud × Except String String) (c : Cloud) (name : String) :
    Cloud × Except String String :=
  let founds := list_objects_with_name c name
  if founds ≠ [] then
    (c, Except.error (fmt_already_exists what name))
  else
    create c

/-- `CreateOrEnsureExists.ensure_exists`: `ret = find_by_name(name)`, raise
`OpenStackLogicError` `if not ret` (Python falsiness: `None` or the empty
string), otherwise return `ret`.  Never references `create`. -/
def CreateOrEnsureExists.ensure_exists (what : String)
    (list_objects_with_name : Cloud → String → List Obj) (c : Cloud)
    (name : String) : Cloud × Except String String :=
  match CreateOrEnsureExists.find_by_name what list_objects_with_name c name with
  | Except.error e => (c, Except.error e)
  | Except.ok none => (c, Except.error (fmt_not_found what name))
  | Except.ok (some ret) =>
    if ret.isEmpty then (c, Except.error (fmt_not_found what name))
    else (c, Except.ok ret)

/-- `CreateOrEnsureExists.create_or_ensure_exists`: dispatch on the
`externally_provisioned` flag of the config dict. -/
def CreateOrEnsureExists.create_or_ensure_exists (what : String)
    (list_objects_with_name : Cloud → String → List Obj)
    (create : Cloud → Cloud × Except String String) (conf : ResourceConf)
    (c : Cloud) (name : String) : Cloud × Except String String :=
  if epTruthy conf then
    CreateOrEnsureExists.ensure_exists what list_objects_with_name c name
  else
    CreateOrEnsureExists.check_and_create what list_objects_with_name create c name

/-- `OpenStackNetworkCreator.WHAT`. -/
def OpenStackNetworkCreator.WHAT : String := "network"

/-- `OpenStackNetworkCreator.list_objects_with_name`. -/
def OpenStackNetworkCreator.list_objects_with_name (c : Cloud) (name : String) :
    List Obj :=
  neutron_list_networks c name

/-- `OpenStackNetworkCreator.create(name, ext)`: build the network payload
with `admin_state_up=True` and `router:external=ext`, submit it, return the
new network's id. -/
def OpenStackNetworkCreator.create (name : String) (ext : Bool) (c : Cloud) :
    Cloud × Except String String :=
  let (c1, retId) := neutron_create_network c
    { name := name, admin_state_up := true, router_external := ext }
  (c1, Except.ok retId)

/-- `OpenStackNetworkCreator.create_or_ensure_exists(conf, name, ext=...)`. -/
def OpenStackNetworkCreator.create_or_ensure_exists (conf : ResourceConf)
    (name : String) (ext : Bool) (c : Cloud) : Cloud × Except String String :=
  CreateOrEnsureExists.create_or_ensure_exists OpenStackNetworkCreator.WHAT
    OpenStackNetworkCreator.list_objects_with_name
    (OpenStackNetworkCreator.create name ext) conf c name

/-- `OpenStackSubnetCreator.WHAT`. -/
def OpenStackSubnetCreator.WHAT : String := "subnet"

/-- `OpenStackSubnetCreator.list_objects_with_name`. -/
def OpenStackSubnetCreator.list_objects_with_name (c : Cloud) (name : String) :
    List Obj :=
  neutron_list_subnets c name

/-- `OpenStackSubnetCreator.create(name, ip_version, cidr, net_id)`. -/
def OpenStackSubnetCreator.create (name : String) (ip_version : Nat)
    (cidr : String) (net_id : String) (c : Cloud) : Cloud × Except String String :=
  let (c1, retId) := neutron_create_subnet c
    { name := name, ip_version := ip_version, cidr := cidr, network_id := net_id }
  (c1, Except.ok retId)

/-- `OpenStackSubnetCreator.create_or_ensure_exists(conf, name, ip_version,
cidr, net_id)`. -/
def OpenStackSubnetCreator.create_or_ensure_exists (conf : ResourceConf)
    (name : String) (ip_version : Nat) (cidr : String) (net_id : String)
    (c : Cloud) : Cloud × Except String String :=
  CreateOrEnsureExists.create_or_ensure_exists OpenStackSubnetCreator.WHAT
    OpenStackSubnetCreator.list_objects_with_name
    (OpenStackSubnetCreator.create name ip_version cidr net_id) conf c name

/-- `OpenStackRouterCreator.WHAT`. -/
def OpenStackRouterCreator.WHAT : String := "router"

/-- `OpenStackRouterCreator.list_objects_with_name`. -/
def OpenStackRouterCreator.list_objects_with_name (c : Cloud) (name : String) :
    List Obj :=
  neutron_list_routers c name

/-- The interface-attachment loop of `OpenStackRouterCreator.create`: call
`add_interface_router(router_id, i)` for each descriptor in order, stopping at
the first adapter error (a raised exception aborts the loop). -/
def addInterfacesLoop (router_id : String) :
    Cloud → List RouterInterface → Cloud × Except String Unit
  | c, [] => (c, Except.ok ())
  | c, i :: rest =>
    match neutron_add_interface_router c router_id i with
    | (c1, Except.error e) => (c1, Except.error e)
    | (c1, Except.ok _) => addInterfacesLoop router_id c1 rest

/-- `OpenStackRouterCreator.create(name, interfaces, external_gateway_info)`:
build the router args with `admin_state_up=True`, adding the
`external_gateway_info` key only when the argument is truthy (a non-`None`
dict); create the router; then, `if interfaces:`, attach each interface as a
secondary step.  No compensation is attempted when an attachment raises. -/
def OpenStackRouterCreator.create (name : String)
    (interfaces : Option (List RouterInterface))
    (external_gateway_info : Option ExternalGatewayInfo) (c : Cloud) :
    Cloud × Except String String :=
  let args : RouterPayload :=
    { name := name, admin_state_up := true,
      external_gateway_info := external_gateway_info }
  let (c1, router_id) := neutron_create_router c args
  match interfaces with
  | none => (c1, Except.ok router_id)
  | some ifs =>
    match addInterfacesLoop router_id c1 ifs with
    | (c2, Except.error e) => (c2, Except.error e)
    | (c2, Except.ok _) => (c2, Except.ok router_id)

/-- `OpenStackRouterCreator.create_or_ensure_exists(conf, name, interfaces=...,
external_gateway_info=...)`. -/
def OpenStackRouterCreator.create_or_ensure_exists (conf : ResourceConf)
    (name : String) (interfaces : Option (List RouterInterface))
    (external_gateway_info : Option ExternalGatewayInfo) (c : Cloud) :
    Cloud × Except String String :=
  CreateOrEnsureExists.create_or_ensure_exists OpenStackRouterCreator.WHAT
    OpenStackRouterCreator.list_objects_with_name
    (OpenStackRouterCreator.create name interfaces external_gateway_info) conf c name

/-- `OpenStackSecurityGroupCreator.WHAT`. -/
def OpenStackSecurityGroupCreator.WHAT : String := "security group"

/-- `OpenStackSecurityGroupCreator.list_objects_with_name`:
`[{'id': sg.id} for sg in self.nova_client.security_groups.list() if sg.name == name]`. -/
def OpenStackSecurityGroupCreator.list_objects_with_name (c : Cloud)
    (name : String) : List Obj :=
  ((nova_security_groups_list c).filter (fun sg => sg.name == name)).map
    (fun sg => { id := sg.id })

/-- `OpenStackSecurityGroupCreator.create(name, description, rules)`: create
the group, then submit one `security_group_rules.create` call per rule with
`ip_protocol="tcp"`, `from_port=to_port=rule['port']`, `cidr=rule.get('cidr')`
and `group_id=rule.get('group_id')`; return `sg.id`. -/
def OpenStackSecurityGroupCreator.create (name description : String)
    (rules : List SecurityRule) (c : Cloud) : Cloud × Except String String :=
  let (c1, sg_id) := nova_security_groups_create c name description
  let c2 := rules.foldl
    (fun acc rule =>
      nova_security_group_rules_create acc sg_id "tcp" rule.port rule.port
        rule.cidr rule.group_id) c1
  (c2, Except.ok sg_id)

/-- `OpenStackSecurityGroupCreator.create_or_ensure_exists(conf, name,
description, rules)`. -/
def OpenStackSecurityGroupCreator.create_or_ensure_exists (conf : ResourceConf)
    (name description : String) (rules : List SecurityRule) (c : Cloud) :
    Cloud × Except String String :=
  CreateOrEnsureExists.create_or_ensure_exists OpenStackSecurityGroupCreator.WHAT
    OpenStackSecurityGroupCreator.list_objects_with_name
    (OpenStackSecurityGroupCreator.create name description rules) conf c name

/-- `EXTERNAL_PORTS = (22, 9000)`. -/
def EXTERNAL_PORTS : List Nat := [22, 9000]

/-- `INTERNAL_PORTS = (5555, 5672)`  (Riemann, RabbitMQ). -/
def INTERNAL_PORTS : List Nat := [5555, 5672]

/-- The `management.network` / `management.ext_network` config sections as
read by `run`: the `externally_provisioned` flag and `name`. -/
structure NetworkConf extends ResourceConf where
  name : String
deriving DecidableEq, Repr

/-- The `management.subnet` config section as read by `run`. -/
structure SubnetConf extends ResourceConf where
  name : String
  ip_version : Nat
  cidr : String
deriving DecidableEq, Repr

/-- The `management.router` config section as read by `run`. -/
structure RouterConf extends ResourceConf where
  name : String
deriving DecidableEq, Repr

/-- The `management.security_group_user` config section as read by `run`. -/
structure SGUserConf extends ResourceConf where
  name : String
deriving DecidableEq, Repr

/-- The `management.security_group_manager` config section as read by `run`:
`name` and the external `cidr` for the externally exposed ports. -/
structure SGManagerConf extends ResourceConf where
  name : String
  cidr : String
deriving DecidableEq, Repr

/-- The `management` section of the configuration, with the sub-objects that
`CosmoOnOpenStackInstaller.run` reads. -/
structure ManagementConf where
  network : NetworkConf
  subnet : SubnetConf
  ext_network : NetworkConf
  router : RouterConf
  security_group_user : SGUserConf
  security_group_manager : SGManagerConf
deriving DecidableEq, Repr

/-- `CosmoOnOpenStackInstaller.run`: the fixed topology sequence.  Each
uncaught exception of a step aborts the remaining steps (modelled by the
early `Except.error` returns). -/
def CosmoOnOpenStackInstaller.run (config : ManagementConf) (c : Cloud) :
    Cloud × Except String Unit :=
  let nconf := config.network
  match OpenStackNetworkCreator.create_or_ensure_exists nconf.toResourceConf
      nconf.name false c with
  | (c1, Except.error e) => (c1, Except.error e)
  | (c1, Except.ok net_id) =>
    let sconf := config.subnet
    match OpenStackSubnetCreator.create_or_ensure_exists sconf.toResourceConf
        sconf.name sconf.ip_version sconf.cidr net_id c1 with
    | (c2, Except.error e) => (c2, Except.error e)
    | (c2, Except.ok subnet_id) =>
      let enconf := config.ext_network
      match OpenStackNetworkCreator.create_or_ensure_exists enconf.toResourceConf
          enconf.name true c2 with
      | (c3, Except.error e) => (c3, Except.error e)
      | (c3, Except.ok enet_id) =>
        let rconf := config.router
        match OpenStackRouterCreator.create_or_ensure_exists rconf.toResourceConf
            rconf.name (some [{ subnet_id := subnet_id }])
            (some { network_id := enet_id }) c3 with
        | (c4, Except.error e) => (c4, Except.error e)
        | (c4, Except.ok _) =>
          let sguconf := config.security_group_user
          match OpenStackSecurityGroupCreator.create_or_ensure_exists
              sguconf.toResourceConf sguconf.name "Cosmo created machines" [] c4 with
          | (c5, Except.error e) => (c5, Except.error e)
          | (c5, Except.ok sgu_id) =>
            let sgmconf := config.security_group_manager
            let sg_rules :=
              (INTERNAL_PORTS.map
                (fun p => ({ port := p, cidr := none, group_id := some sgu_id } :
                  SecurityRule))) ++
              (EXTERNAL_PORTS.map
                (fun p => ({ port := p, cidr := some sgmconf.cidr, group_id := none } :
                  SecurityRule)))
            match OpenStackSecurityGroupCreator.create_or_ensure_exists
                sgmconf.toResourceConf sgmconf.name "Cosmo Manager" sg_rules c5 with
            | (c6, Except.error e) => (c6, Except.error e)
            | (c6, Except.ok _) => (c6, Except.ok ())

/-- Does a trace event carry exactly one of `cidr` / `group_id`?  Only
security-group-rule submissions constrain anything; every other call is
vacuously fine. -/
def ruleSourceExclusive : CloudEvent → Bool
  | CloudEvent.sg_rule_create _ _ _ _ cidr group_id =>
    (cidr.isSome && !group_id.isSome) || (!cidr.isSome && group_id.isSome)
  | _ => true

/-- `c'` extends the trace of `c` by events whose rule submissions all carry
exactly one source (`ruleSourceExclusive`). -/
def TraceExtends (c c' : Cloud) : Prop :=
  ∃ t, c'.events = c.events ++ t ∧ ∀ e ∈ t, ruleSourceExclusive e = true

/-- A mocked cloud with empty stores, always-successful interface attachment
and the id supply `id0, id1, ...`. -/
def testCloud : Cloud :=
  { supply := fun n => "id" ++ toString n
    counter := 0
    networksByName := fun _ => []
    subnetsByName := fun _ => []
    routersByName := fun _ => []
    security_groups := []
    add_interface_ok := fun _ _ => true
    events := [] }

/-- A configuration with no `externally_provisioned` key anywhere. -/
def testConf : ManagementConf :=
  { network := { externally_provisioned := none, name := "mgmt-net" }
    subnet := { externally_provisioned := none, name := "mgmt-subnet",
                ip_version := 4, cidr := "10.0.0.0/24" }
    ext_network := { externally_provisioned := none, name := "ext-net" }
    router := { externally_provisioned := none, name := "mgmt-router" }
    security_group_user := { externally_provisioned := none, name := "sg-user" }
    security_group_manager := { externally_provisioned := none, name := "sg-mgr",
                                cidr := "0.0.0.0/0" } }

/-- A cloud whose network listing finds one match whose id is the empty
string. -/
def cloudEmptyIdNet : Cloud :=
  { testCloud with networksByName := fun _ => [{ id := "" }] }

/-- A cloud whose network listing finds exactly one match, `{id: "ext-1"}`. -/
def cloudExtNet : Cloud :=
  { testCloud with networksByName := fun _ => [{ id := "ext-1" }] }

/-- A cloud holding two security groups that share the name `dup`. -/
def cloudTwoSGs : Cloud :=
  { testCloud with
      security_groups := [{ id := "sg-1", name := "dup" },
                          { id := "sg-2", name := "dup" }] }

/-- A cloud on which every `add_interface_router` call raises. -/
def cloudAttachFails : Cloud :=
  { testCloud with add_interface_ok := fun _ _ => false }

/-- The rule loop of `OpenStackSecurityGroupCreator.create` appends exactly
one `sg_rule_create` event per rule, in order, and changes nothing else. -/
theorem sg_rules_foldl_events (sg_id : String) (rules : List SecurityRule)
    (c : Cloud) :
    rules.foldl
      (fun acc rule =>
        nova_security_group_rules_create acc sg_id "tcp" rule.port rule.port
          rule.cidr rule.group_id) c =
    { c with events := c.events ++
        rules.map (fun rule =>
          CloudEvent.sg_rule_create sg_id "tcp" rule.port rule.port
            rule.cidr rule.group_id) } := by
  induction rules generalizing c with
  | nil => simp
  | cons r rest ih =>
    rw [List.foldl_cons, ih]
    simp [nova_security_group_rules_create]

/-- Claim C2: for every resource kind (any `WHAT`, `list_objects_with_name`
and kind-specific `create`) and every name, `check_and_create` fails with the
AlreadyExists error when the listing returns one or more matches, and
otherwise its outcome is exactly `create c`: the state and the returned handle
are those produced by a single invocation of `create`. -/
theorem check_and_create_spec (what : String)
    (lobjs : Cloud → String → List Obj)
    (create : Cloud → Cloud × Except String String) (c : Cloud) (name : String) :
    (lobjs c name ≠ [] →
      CreateOrEnsureExists.check_and_create what lobjs create c name =
        (c, Except.error (fmt_already_exists what name))) ∧
    (lobjs c name = [] →
      CreateOrEnsureExists.check_and_create what lobjs create c name =
        create c) := by
  constructor <;> intro h <;>
    simp [CreateOrEnsureExists.check_and_create, h]

/-- Witness for C2: on an empty mocked store, `check_and_create` for the
network kind is exactly one `create` call. -/
theorem check_and_create_spec_witness :
    CreateOrEnsureExists.check_and_create "network"
      OpenStackNetworkCreator.list_objects_with_name
      (OpenStackNetworkCreator.create "mgmt-net" false) testCloud "mgmt-net" =
      OpenStackNetworkCreator.create "mgmt-net" false testCloud :=
  (check_and_create_spec "network" OpenStackNetworkCreator.list_objects_with_name
    (OpenStackNetworkCreator.create "mgmt-net" false) testCloud "mgmt-net").2 rfl

/-- Counterexample to claim C3 as stated: with exactly one match whose id is
the empty string, `ensure_exists` does not return the match's id; Python's
`if not ret` treats the empty-string id as missing and raises the NotFound
error. -/
theorem ensure_exists_empty_id_counterexample :
    OpenStackNetworkCreator.list_objects_with_name cloudEmptyIdNet "n" =
      [{ id := "" }] ∧
    CreateOrEnsureExists.ensure_exists "network"
      OpenStackNetworkCreator.list_objects_with_name cloudEmptyIdNet "n" =
      (cloudEmptyIdNet, Except.error (fmt_not_found "network" "n")) ∧
    (CreateOrEnsureExists.ensure_exists "network"
      OpenStackNetworkCreator.list_objects_with_name cloudEmptyIdNet "n").2 ≠
      Except.ok "" := by
  refine ⟨rfl, rfl, fun h => ?_⟩
  rw [show (CreateOrEnsureExists.ensure_exists "network"
    OpenStackNetworkCreator.list_objects_with_name cloudEmptyIdNet "n").2 =
      Except.error (fmt_not_found "network" "n") from rfl] at h
  cases h

/-- Claim C3 (amended): for every resource kind and every name,
`ensure_exists` returns the unique match's id when the listing returns exactly
one match with a non-empty id; it fails with the NotFound error on zero
matches, and also when the unique match's id is the empty string (Python
falsiness).  The returned state is `c` unchanged in every case: this branch
never references the kind's `create`. -/
theorem ensure_exists_spec (what : String)
    (lobjs : Cloud → String → List Obj) (c : Cloud) (name : String) :
    (∀ m : Obj, lobjs c name = [m] → m.id.isEmpty = false →
      CreateOrEnsureExists.ensure_exists what lobjs c name =
        (c, Except.ok m.id)) ∧
    (lobjs c name = [] →
      CreateOrEnsureExists.ensure_exists what lobjs c name =
        (c, Except.error (fmt_not_found what name))) ∧
    (∀ m : Obj, lobjs c name = [m] → m.id.isEmpty = true →
      CreateOrEnsureExists.ensure_exists what lobjs c name =
        (c, Except.error (fmt_not_found what name))) := by
  refine ⟨fun m hm hid => ?_, fun hm => ?_, fun m hm hid => ?_⟩
  · simp [CreateOrEnsureExists.ensure_exists, CreateOrEnsureExists.find_by_name,
      hm, hid]
  · simp [CreateOrEnsureExists.ensure_exists, CreateOrEnsureExists.find_by_name,
      hm]
  · simp [CreateOrEnsureExists.ensure_exists, CreateOrEnsureExists.find_by_name,
      hm, hid]

/-- Witness for C3 (amended): one match `{id: "ext-1"}` makes `ensure_exists`
return `"ext-1"` with the cloud state untouched. -/
theorem ensure_exists_spec_witness :
    CreateOrEnsureExists.ensure_exists "network"
      OpenStackNetworkCreator.list_objects_with_name cloudExtNet "ext-net" =
      (cloudExtNet, Except.ok "ext-1") :=
  (ensure_exists_spec "network" OpenStackNetworkCreator.list_objects_with_name
    cloudExtNet "ext-net").1 { id := "ext-1" } rfl rfl

/-- Claim C4: for every resource kind and every name, when the listing
returns two or more matches, `find_by_name` fails with the AmbiguousName
error built from the resource kind, the name and the exact match count — and
`ensure_exists`, which goes through `find_by_name`, propagates the same
error. -/
theorem find_by_name_ambiguous (what : String)
    (lobjs : Cloud → String → List Obj) (c : Cloud) (name : String)
    (h : 2 ≤ (lobjs c name).length) :
    CreateOrEnsureExists.find_by_name what lobjs c name =
      Except.error (fmt_ambiguous what name (lobjs c name).length) ∧
    CreateOrEnsureExists.ensure_exists what lobjs c name =
      (c, Except.error (fmt_ambiguous what name (lobjs c name).length)) := by
  rcases hl : lobjs c name with _ | ⟨m1, tl⟩
  · rw [hl] at h; simp at h
  · rcases tl with _ | ⟨m2, rest⟩
    · rw [hl] at h; simp at h
    · constructor <;>
        simp [CreateOrEnsureExists.ensure_exists,
          CreateOrEnsureExists.find_by_name, hl]

/-- Witness for C4: two security groups named `dup` make the lookup fail with
the AmbiguousName error reporting 2 matches. -/
theorem find_by_name_ambiguous_witness :
    CreateOrEnsureExists.find_by_name "security group"
      OpenStackSecurityGroupCreator.list_objects_with_name cloudTwoSGs "dup" =
      Except.error (fmt_ambiguous "security group" "dup"
        (OpenStackSecurityGroupCreator.list_objects_with_name cloudTwoSGs
          "dup").length) ∧
    CreateOrEnsureExists.ensure_exists "security group"
      OpenStackSecurityGroupCreator.list_objects_with_name cloudTwoSGs "dup" =
      (cloudTwoSGs, Except.error (fmt_ambiguous "security group" "dup"
        (OpenStackSecurityGroupCreator.list_objects_with_name cloudTwoSGs
          "dup").length)) :=
  find_by_name_ambiguous "security group"
    OpenStackSecurityGroupCreator.list_objects_with_name cloudTwoSGs "dup"
    (by decide)

/-- Claim C8: `ensure_exists` is deterministic with respect to an unchanged
backing store — two runs whose listings return the same single match produce
identical results (and, the store being read-only here, identical means the
very same id whenever an id is returned at all). -/
theorem ensure_exists_idempotent (what : String)
    (lobjs : Cloud → String → List Obj) (c1 c2 : Cloud) (name : String)
    (m : Obj) (h1 : lobjs c1 name = [m]) (h2 : lobjs c2 name = [m]) :
    (CreateOrEnsureExists.ensure_exists what lobjs c1 name).2 =
      (CreateOrEnsureExists.ensure_exists what lobjs c2 name).2 := by
  cases hid : m.id.isEmpty <;>
    simp [CreateOrEnsureExists.ensure_exists, CreateOrEnsureExists.find_by_name,
      h1, h2, hid]

/-- Witness for C8: two `ensure_exists` runs against the same one-match store
agree on the returned id. -/
theorem ensure_exists_idempotent_witness :
    (CreateOrEnsureExists.ensure_exists "network"
      OpenStackNetworkCreator.list_objects_with_name cloudExtNet "ext-net").2 =
      (CreateOrEnsureExists.ensure_exists "network"
        OpenStackNetworkCreator.list_objects_with_name cloudExtNet "ext-net").2 :=
  ensure_exists_idempotent "network"
    OpenStackNetworkCreator.list_objects_with_name cloudExtNet cloudExtNet
    "ext-net" { id := "ext-1" } rfl rfl

/-- Claim C9: `create_or_ensure_exists` takes the `check_and_create` branch
both when the `externally_provisioned` key is absent and when it is present
but false; only a present and truthy value selects `ensure_exists`. -/
theorem create_or_ensure_exists_branch (what : String)
    (lobjs : Cloud → String → List Obj)
    (create : Cloud → Cloud × Except String String) (conf : ResourceConf)
    (c : Cloud) (name : String) :
    (conf.externally_provisioned = none →
      CreateOrEnsureExists.create_or_ensure_exists what lobjs create conf c name =
        CreateOrEnsureExists.check_and_create what lobjs create c name) ∧
    (conf.externally_provisioned = some false →
      CreateOrEnsureExists.create_or_ensure_exists what lobjs create conf c name =
        CreateOrEnsureExists.check_and_create what lobjs create c name) ∧
    (conf.externally_provisioned = some true →
      CreateOrEnsureExists.create_or_ensure_exists what lobjs create conf c name =
        CreateOrEnsureExists.ensure_exists what lobjs c name) := by
  refine ⟨fun h => ?_, fun h => ?_, fun h => ?_⟩ <;>
    simp [CreateOrEnsureExists.create_or_ensure_exists, epTruthy, h]

/-- Witness for C9: with the key absent the creation branch is taken. -/
theorem create_or_ensure_exists_branch_witness :
    CreateOrEnsureExists.create_or_ensure_exists "network"
      OpenStackNetworkCreator.list_objects_with_name
      (OpenStackNetworkCreator.create "mgmt-net" false)
      { externally_provisioned := none } testCloud "mgmt-net" =
      CreateOrEnsureExists.check_and_create "network"
        OpenStackNetworkCreator.list_objects_with_name
        (OpenStackNetworkCreator.create "mgmt-net" false) testCloud "mgmt-net" :=
  (create_or_ensure_exists_branch "network"
    OpenStackNetworkCreator.list_objects_with_name
    (OpenStackNetworkCreator.create "mgmt-net" false)
    { externally_provisioned := none } testCloud "mgmt-net").1 rfl

/-- Claim C5: for a rule list shaped like the manager security group's — `N`
internal ports each scoped to the user group's id, then `M` external ports
each scoped to the configured CIDR — `create` makes one group-creation call
and then submits exactly one rule per port in order: `N` rules whose source is
`group_id = gid` (and no CIDR), followed by `M` rules whose source is
`cidr = cidrConf` (and no group id), each with `ip_protocol = "tcp"` and
`from_port = to_port =` that rule's port. -/
theorem security_group_rule_expansion (internal external : List Nat)
    (gid cidrConf name description : String) (c : Cloud) :
    OpenStackSecurityGroupCreator.create name description
      ((internal.map (fun p =>
          ({ port := p, cidr := none, group_id := some gid } : SecurityRule))) ++
       (external.map (fun p =>
          ({ port := p, cidr := some cidrConf, group_id := none } : SecurityRule))))
      c =
    ({ c with
        counter := c.counter + 1,
        events := c.events ++
          [CloudEvent.sg_create name description (c.supply c.counter)] ++
          internal.map (fun p =>
            CloudEvent.sg_rule_create (c.supply c.counter) "tcp" p p none
              (some gid)) ++
          external.map (fun p =>
            CloudEvent.sg_rule_create (c.supply c.counter) "tcp" p p
              (some cidrConf) none) },
     Except.ok (c.supply c.counter)) := by
  rw [OpenStackSecurityGroupCreator.create]
  simp only [nova_security_groups_create, Cloud.freshId, sg_rules_foldl_events]
  simp [List.map_map, Function.comp_def, List.append_assoc]

/-- Claim C10: for the security group kind, `create` with an empty rule list
makes exactly one group-creation call, submits no rules, and returns the new
group's id drawn from the supply.  (`run` invokes exactly this for the user
security group, passing the literal empty rule list.) -/
theorem security_group_create_no_rules (name description : String) (c : Cloud) :
    OpenStackSecurityGroupCreator.create name description [] c =
    ({ c with
        counter := c.counter + 1,
        events := c.events ++
          [CloudEvent.sg_create name description (c.supply c.counter)] },
     Except.ok (c.supply c.counter)) := by
  rw [OpenStackSecurityGroupCreator.create]
  simp [nova_security_groups_create, Cloud.freshId]

/-- Claim C7: router creation is two-phase and non-atomic.  The router-create
call is submitted first; interfaces are attached afterwards one by one, and
when an attachment raises (here: the first one), the error propagates while
the already-submitted router creation stays in the trace — no compensating
call of any kind is made. -/
theorem router_create_attach_failure (name : String) (i : RouterInterface)
    (rest : List RouterInterface) (egi : Option ExternalGatewayInfo) (c : Cloud)
    (h : c.add_interface_ok (c.supply c.counter) i = false) :
    OpenStackRouterCreator.create name (some (i :: rest)) egi c =
    ({ c with
        counter := c.counter + 1,
        events := c.events ++
          [CloudEvent.create_router
            { name := name, admin_state_up := true,
              external_gateway_info := egi } (c.supply c.counter)] },
     Except.error "add_interface_router failed") := by
  rw [OpenStackRouterCreator.create]
  simp [neutron_create_router, Cloud.freshId, addInterfacesLoop,
    neutron_add_interface_router, h]

/-- Witness for C7: on a cloud where every attachment raises, the create call
errors out yet the trace retains the router creation. -/
theorem router_create_attach_failure_witness :
    OpenStackRouterCreator.create "mgmt-router"
      (some [{ subnet_id := "id1" }]) (some { network_id := "id2" })
      cloudAttachFails =
    ({ cloudAttachFails with
        counter := cloudAttachFails.counter + 1,
        events := cloudAttachFails.events ++
          [CloudEvent.create_router
            { name := "mgmt-router", admin_state_up := true,
              external_gateway_info := some { network_id := "id2" } }
            (cloudAttachFails.supply cloudAttachFails.counter)] },
     Except.error "add_interface_router failed") :=
  router_create_attach_failure "mgmt-router" { subnet_id := "id1" } []
    (some { network_id := "id2" }) cloudAttachFails rfl

/-- Claim C1: on a fresh store (no matches anywhere, nothing externally
provisioned, attachment succeeding), `run` performs exactly the ordered
sequence network, subnet, external network, router, user security group,
manager security group, threading handles forward: the subnet payload's
`network_id` is exactly the id the network step returned (`supply 0`), the
router's `external_gateway_info` holds exactly the external-network id
(`supply 2`), its single attached interface holds exactly the subnet id
(`supply 1`), and the manager group's group-scoped rules reference exactly
the user group's id (`supply 4`). -/
theorem run_fixed_sequence (config : ManagementConf) (c : Cloud)
    (hcnt : c.counter = 0) (hev : c.events = [])
    (ep1 : epTruthy config.network.toResourceConf = false)
    (ep2 : epTruthy config.subnet.toResourceConf = false)
    (ep3 : epTruthy config.ext_network.toResourceConf = false)
    (ep4 : epTruthy config.router.toResourceConf = false)
    (ep5 : epTruthy config.security_group_user.toResourceConf = false)
    (ep6 : epTruthy config.security_group_manager.toResourceConf = false)
    (hl1 : c.networksByName config.network.name = [])
    (hl2 : c.subnetsByName config.subnet.name = [])
    (hl3 : c.networksByName config.ext_network.name = [])
    (hl4 : c.routersByName config.router.name = [])
    (hl5 : c.security_groups.filter
      (fun sg => sg.name == config.security_group_user.name) = [])
    (hl6 : c.security_groups.filter
      (fun sg => sg.name == config.security_group_manager.name) = [])
    (hattach : c.add_interface_ok (c.supply 3)
      { subnet_id := c.supply 1 } = true) :
    CosmoOnOpenStackInstaller.run config c =
    ({ c with
        counter := 6,
        events :=
          [CloudEvent.create_network
            { name := config.network.name, admin_state_up := true,
              router_external := false } (c.supply 0),
           CloudEvent.create_subnet
            { name := config.subnet.name, ip_version := config.subnet.ip_version,
              cidr := config.subnet.cidr, network_id := c.supply 0 } (c.supply 1),
           CloudEvent.create_network
            { name := config.ext_network.name, admin_state_up := true,
              router_external := true } (c.supply 2),
           CloudEvent.create_router
            { name := config.router.name, admin_state_up := true,
              external_gateway_info := some { network_id := c.supply 2 } }
            (c.supply 3),
           CloudEvent.add_interface_router (c.supply 3)
            { subnet_id := c.supply 1 },
           CloudEvent.sg_create config.security_group_user.name
            "Cosmo created machines" (c.supply 4),
           CloudEvent.sg_create config.security_group_manager.name
            "Cosmo Manager" (c.supply 5),
           CloudEvent.sg_rule_create (c.supply 5) "tcp" 5555 5555 none
            (some (c.supply 4)),
           CloudEvent.sg_rule_create (c.supply 5) "tcp" 5672 5672 none
            (some (c.supply 4)),
           CloudEvent.sg_rule_create (c.supply 5) "tcp" 22 22
            (some config.security_group_manager.cidr) none,
           CloudEvent.sg_rule_create (c.supply 5) "tcp" 9000 9000
            (some config.security_group_manager.cidr) none] },
     Except.ok ()) := by
  simp [CosmoOnOpenStackInstaller.run,
    OpenStackNetworkCreator.create_or_ensure_exists,
    OpenStackSubnetCreator.create_or_ensure_exists,
    OpenStackRouterCreator.create_or_ensure_exists,
    OpenStackSecurityGroupCreator.create_or_ensure_exists,
    CreateOrEnsureExists.create_or_ensure_exists,
    CreateOrEnsureExists.check_and_create,
    OpenStackNetworkCreator.list_objects_with_name,
    OpenStackSubnetCreator.list_objects_with_name,
    OpenStackRouterCreator.list_objects_with_name,
    OpenStackSecurityGroupCreator.list_objects_with_name,
    neutron_list_networks, neutron_list_subnets, neutron_list_routers,
    nova_security_groups_list,
    OpenStackNetworkCreator.create, OpenStackSubnetCreator.create,
    OpenStackRouterCreator.create, OpenStackSecurityGroupCreator.create,
    neutron_create_network, neutron_create_subnet, neutron_create_router,
    neutron_add_interface_router, nova_security_groups_create,
    nova_security_group_rules_create, Cloud.freshId, addInterfacesLoop,
    INTERNAL_PORTS, EXTERNAL_PORTS,
    ep1, ep2, ep3, ep4, ep5, ep6, hl1, hl2, hl3, hl4, hl5, hl6,
    hattach, hcnt, hev]

/-- Witness for C1: the concrete fresh cloud and key-less configuration run
through the whole sequence, producing the threaded trace. -/
theorem run_fixed_sequence_witness :
    CosmoOnOpenStackInstaller.run testConf testCloud =
    ({ testCloud with
        counter := 6,
        events :=
          [CloudEvent.create_network
            { name := testConf.network.name, admin_state_up := true,
              router_external := false } (testCloud.supply 0),
           CloudEvent.create_subnet
            { name := testConf.subnet.name,
              ip_version := testConf.subnet.ip_version,
              cidr := testConf.subnet.cidr, network_id := testCloud.supply 0 }
            (testCloud.supply 1),
           CloudEvent.create_network
            { name := testConf.ext_network.name, admin_state_up := true,
              router_external := true } (testCloud.supply 2),
           CloudEvent.create_router
            { name := testConf.router.name, admin_state_up := true,
              external_gateway_info := some { network_id := testCloud.supply 2 } }
            (testCloud.supply 3),
           CloudEvent.add_interface_router (testCloud.supply 3)
            { subnet_id := testCloud.supply 1 },
           CloudEvent.sg_create testConf.security_group_user.name
            "Cosmo created machines" (testCloud.supply 4),
           CloudEvent.sg_create testConf.security_group_manager.name
            "Cosmo Manager" (testCloud.supply 5),
           CloudEvent.sg_rule_create (testCloud.supply 5) "tcp" 5555 5555 none
            (some (testCloud.supply 4)),
           CloudEvent.sg_rule_create (testCloud.supply 5) "tcp" 5672 5672 none
            (some (testCloud.supply 4)),
           CloudEvent.sg_rule_create (testCloud.supply 5) "tcp" 22 22
            (some testConf.security_group_manager.cidr) none,
           CloudEvent.sg_rule_create (testCloud.supply 5) "tcp" 9000 9000
            (some testConf.security_group_manager.cidr) none] },
     Except.ok ()) :=
  run_fixed_sequence testConf testCloud rfl rfl rfl rfl rfl rfl rfl rfl
    rfl rfl rfl rfl rfl rfl rfl

/-- The empty trace extension. -/
theorem TraceExtends.refl (c : Cloud) : TraceExtends c c :=
  ⟨[], by simp, by simp⟩

/-- Trace extensions compose. -/
theorem TraceExtends.trans {c1 c2 c3 : Cloud} (h1 : TraceExtends c1 c2)
    (h2 : TraceExtends c2 c3) : TraceExtends c1 c3 := by
  obtain ⟨t1, e1, ok1⟩ := h1
  obtain ⟨t2, e2, ok2⟩ := h2
  refine ⟨t1 ++ t2, by simp [e2, e1], ?_⟩
  intro e he
  rcases List.mem_append.mp he with h | h
  · exact ok1 e h
  · exact ok2 e h

/-- A network create call appends one (non-rule) event. -/
theorem traceExtends_network_create (name : String) (ext : Bool) (c : Cloud) :
    TraceExtends c (OpenStackNetworkCreator.create name ext c).1 :=
  ⟨[CloudEvent.create_network
      { name := name, admin_state_up := true, router_external := ext }
      (c.supply c.counter)],
   by simp [OpenStackNetworkCreator.create, neutron_create_network, Cloud.freshId],
   by simp [ruleSourceExclusive]⟩

/-- A subnet create call appends one (non-rule) event. -/
theorem traceExtends_subnet_create (name : String) (ip_version : Nat)
    (cidr net_id : String) (c : Cloud) :
    TraceExtends c (OpenStackSubnetCreator.create name ip_version cidr net_id c).1 :=
  ⟨[CloudEvent.create_subnet
      { name := name, ip_version := ip_version, cidr := cidr,
        network_id := net_id } (c.supply c.counter)],
   by simp [OpenStackSubnetCreator.create, neutron_create_subnet, Cloud.freshId],
   by simp [ruleSourceExclusive]⟩

/-- An interface attachment appends at most one (non-rule) event. -/
theorem traceExtends_add_interface (c : Cloud) (rid : String)
    (i : RouterInterface) :
    TraceExtends c (neutron_add_interface_router c rid i).1 := by
  rw [neutron_add_interface_router]
  split
  · exact ⟨[CloudEvent.add_interface_router rid i], by simp,
      by simp [ruleSourceExclusive]⟩
  · exact TraceExtends.refl c

/-- The attachment loop only appends (non-rule) events. -/
theorem traceExtends_addInterfacesLoop (rid : String)
    (l : List RouterInterface) (c : Cloud) :
    TraceExtends c (addInterfacesLoop rid c l).1 := by
  induction l generalizing c with
  | nil => exact TraceExtends.refl c
  | cons i rest ih =>
    have hte := traceExtends_add_interface c rid i
    rw [addInterfacesLoop]
    rcases hadd : neutron_add_interface_router c rid i with ⟨c1, r⟩
    rw [hadd] at hte
    cases r with
    | error e => exact hte
    | ok u => exact hte.trans (ih c1)

/-- A router create call appends the router event and attachment events,
none of which is a rule submission. -/
theorem traceExtends_router_create (name : String)
    (interfaces : Option (List RouterInterface))
    (egi : Option ExternalGatewayInfo) (c : Cloud) :
    TraceExtends c (OpenStackRouterCreator.create name interfaces egi c).1 := by
  rw [OpenStackRouterCreator.create]
  dsimp only [neutron_create_router, Cloud.freshId]
  rcases interfaces with _ | ifs
  · exact ⟨[CloudEvent.create_router
      { name := name, admin_state_up := true, external_gateway_info := egi }
      (c.supply c.counter)], by simp, by simp [ruleSourceExclusive]⟩
  · have h2 : ∀ cX : Cloud, TraceExtends c cX → TraceExtends c
        (match addInterfacesLoop (c.supply c.counter) cX ifs with
          | (c2, Except.error e) => (c2, Except.error e)
          | (c2, Except.ok _) => (c2, Except.ok (c.supply c.counter))).1 := by
      intro cX hc1
      rcases hq : addInterfacesLoop (c.supply c.counter) cX ifs with ⟨c2, r⟩
      have hl := traceExtends_addInterfacesLoop (c.supply c.counter) ifs cX
      rw [hq] at hl
      cases r with
      | error e => exact hc1.trans hl
      | ok u => exact hc1.trans hl
    exact h2 _ ⟨[CloudEvent.create_router
      { name := name, admin_state_up := true, external_gateway_info := egi }
      (c.supply c.counter)], by simp, by simp [ruleSourceExclusive]⟩

/-- A security-group create call appends the group event and one rule event
per given rule; when every given rule carries exactly one source, so does
every appended event. -/
theorem traceExtends_sg_create (name description : String)
    (rules : List SecurityRule) (c : Cloud)
    (hr : ∀ r ∈ rules,
      ((r.cidr.isSome && !r.group_id.isSome) ||
       (!r.cidr.isSome && r.group_id.isSome)) = true) :
    TraceExtends c
      (OpenStackSecurityGroupCreator.create name description rules c).1 := by
  rw [OpenStackSecurityGroupCreator.create]
  simp only [nova_security_groups_create, Cloud.freshId, sg_rules_foldl_events]
  refine ⟨CloudEvent.sg_create name description (c.supply c.counter) ::
    rules.map (fun r =>
      CloudEvent.sg_rule_create (c.supply c.counter) "tcp" r.port r.port
        r.cidr r.group_id), by simp, ?_⟩
  intro e he
  rw [List.mem_cons] at he
  rcases he with rfl | he
  · rfl
  · obtain ⟨r, hrm, rfl⟩ := List.mem_map.mp he
    simpa [ruleSourceExclusive] using hr r hrm

/-- `ensure_exists` returns the incoming cloud state unchanged. -/
theorem ensure_exists_fst (what : String)
    (lobjs : Cloud → String → List Obj) (c : Cloud) (name : String) :
    (CreateOrEnsureExists.ensure_exists what lobjs c name).1 = c := by
  rw [CreateOrEnsureExists.ensure_exists]
  rcases CreateOrEnsureExists.find_by_name what lobjs c name with e | ret
  · rfl
  · rcases ret with _ | id
    · rfl
    · dsimp only
      split <;> rfl

/-- `check_and_create` extends the trace exactly as its `create` does (or not
at all on the AlreadyExists path). -/
theorem traceExtends_check_and_create (what : String)
    (lobjs : Cloud → String → List Obj)
    (create : Cloud → Cloud × Except String String) (c : Cloud) (name : String)
    (hc : TraceExtends c (create c).1) :
    TraceExtends c
      (CreateOrEnsureExists.check_and_create what lobjs create c name).1 := by
  rw [CreateOrEnsureExists.check_and_create]
  split
  · exact TraceExtends.refl c
  · exact hc

/-- `create_or_ensure_exists` extends the trace exactly as its `create` does
at most once. -/
theorem traceExtends_cooee (what : String)
    (lobjs : Cloud → String → List Obj)
    (create : Cloud → Cloud × Except String String) (conf : ResourceConf)
    (c : Cloud) (name : String) (hc : TraceExtends c (create c).1) :
    TraceExtends c
      (CreateOrEnsureExists.create_or_ensure_exists what lobjs create conf c
        name).1 := by
  rw [CreateOrEnsureExists.create_or_ensure_exists]
  split
  · rw [ensure_exists_fst]
    exact TraceExtends.refl c
  · exact traceExtends_check_and_create what lobjs create c name hc

/-- The network reconciliation step only appends source-exclusive events. -/
theorem traceExtends_network_step (conf : ResourceConf) (name : String)
    (ext : Bool) (c : Cloud) :
    TraceExtends c
      (OpenStackNetworkCreator.create_or_ensure_exists conf name ext c).1 := by
  rw [OpenStackNetworkCreator.create_or_ensure_exists]
  exact traceExtends_cooee OpenStackNetworkCreator.WHAT
    OpenStackNetworkCreator.list_objects_with_name
    (OpenStackNetworkCreator.create name ext) conf c name
    (traceExtends_network_create name ext c)

/-- The subnet reconciliation step only appends source-exclusive events. -/
theorem traceExtends_subnet_step (conf : ResourceConf) (name : String)
    (ip_version : Nat) (cidr net_id : String) (c : Cloud) :
    TraceExtends c
      (OpenStackSubnetCreator.create_or_ensure_exists conf name ip_version cidr
        net_id c).1 := by
  rw [OpenStackSubnetCreator.create_or_ensure_exists]
  exact traceExtends_cooee OpenStackSubnetCreator.WHAT
    OpenStackSubnetCreator.list_objects_with_name
    (OpenStackSubnetCreator.create name ip_version cidr net_id) conf c name
    (traceExtends_subnet_create name ip_version cidr net_id c)

/-- The router reconciliation step only appends source-exclusive events. -/
theorem traceExtends_router_step (conf : ResourceConf) (name : String)
    (interfaces : Option (List RouterInterface))
    (egi : Option ExternalGatewayInfo) (c : Cloud) :
    TraceExtends c
      (OpenStackRouterCreator.create_or_ensure_exists conf name interfaces egi
        c).1 := by
  rw [OpenStackRouterCreator.create_or_ensure_exists]
  exact traceExtends_cooee OpenStackRouterCreator.WHAT
    OpenStackRouterCreator.list_objects_with_name
    (OpenStackRouterCreator.create name interfaces egi) conf c name
    (traceExtends_router_create name interfaces egi c)

/-- The security-group reconciliation step only appends source-exclusive
events, provided every given rule carries exactly one source. -/
theorem traceExtends_sg_step (conf : ResourceConf) (name description : String)
    (rules : List SecurityRule) (c : Cloud)
    (hr : ∀ r ∈ rules,
      ((r.cidr.isSome && !r.group_id.isSome) ||
       (!r.cidr.isSome && r.group_id.isSome)) = true) :
    TraceExtends c
      (OpenStackSecurityGroupCreator.create_or_ensure_exists conf name
        description rules c).1 := by
  rw [OpenStackSecurityGroupCreator.create_or_ensure_exists]
  exact traceExtends_cooee OpenStackSecurityGroupCreator.WHAT
    OpenStackSecurityGroupCreator.list_objects_with_name
    (OpenStackSecurityGroupCreator.create name description rules) conf c name
    (traceExtends_sg_create name description rules c hr)

/-- Whatever the configuration, a whole `run` only ever appends
source-exclusive events to the trace. -/
theorem run_traceExtends (config : ManagementConf) (c : Cloud) :
    TraceExtends c (CosmoOnOpenStackInstaller.run config c).1 := by
  rw [CosmoOnOpenStackInstaller.run]
  rcases h1 : OpenStackNetworkCreator.create_or_ensure_exists
      config.network.toResourceConf config.network.name false c with ⟨c1, r1⟩
  have t1 : TraceExtends c c1 := by
    have := traceExtends_network_step config.network.toResourceConf
      config.network.name false c
    rw [h1] at this; exact this
  cases r1 with
  | error e => exact t1
  | ok net_id =>
  dsimp only
  rcases h2 : OpenStackSubnetCreator.create_or_ensure_exists
      config.subnet.toResourceConf config.subnet.name config.subnet.ip_version
      config.subnet.cidr net_id c1 with ⟨c2, r2⟩
  have t2 : TraceExtends c c2 := by
    have := traceExtends_subnet_step config.subnet.toResourceConf
      config.subnet.name config.subnet.ip_version config.subnet.cidr net_id c1
    rw [h2] at this; exact t1.trans this
  cases r2 with
  | error e => exact t2
  | ok subnet_id =>
  dsimp only
  rcases h3 : OpenStackNetworkCreator.create_or_ensure_exists
      config.ext_network.toResourceConf config.ext_network.name true c2
    with ⟨c3, r3⟩
  have t3 : TraceExtends c c3 := by
    have := traceExtends_network_step config.ext_network.toResourceConf
      config.ext_network.name true c2
    rw [h3] at this; exact t2.trans this
  cases r3 with
  | error e => exact t3
  | ok enet_id =>
  dsimp only
  rcases h4 : OpenStackRouterCreator.create_or_ensure_exists
      config.router.toResourceConf config.router.name
      (some [{ subnet_id := subnet_id }]) (some { network_id := enet_id }) c3
    with ⟨c4, r4⟩
  have t4 : TraceExtends c c4 := by
    have := traceExtends_router_step config.router.toResourceConf
      config.router.name (some [{ subnet_id := subnet_id }])
      (some { network_id := enet_id }) c3
    rw [h4] at this; exact t3.trans this
  cases r4 with
  | error e => exact t4
  | ok rid =>
  dsimp only
  rcases h5 : OpenStackSecurityGroupCreator.create_or_ensure_exists
      config.security_group_user.toResourceConf config.security_group_user.name
      "Cosmo created machines" [] c4 with ⟨c5, r5⟩
  have t5 : TraceExtends c c5 := by
    have := traceExtends_sg_step config.security_group_user.toResourceConf
      config.security_group_user.name "Cosmo created machines" [] c4
      (by simp)
    rw [h5] at this; exact t4.trans this
  cases r5 with
  | error e => exact t5
  | ok sgu_id =>
  dsimp only
  rcases h6 : OpenStackSecurityGroupCreator.create_or_ensure_exists
      config.security_group_manager.toResourceConf
      config.security_group_manager.name "Cosmo Manager"
      ((INTERNAL_PORTS.map (fun p =>
          ({ port := p, cidr := none, group_id := some sgu_id } :
            SecurityRule))) ++
       (EXTERNAL_PORTS.map (fun p =>
          ({ port := p, cidr := some config.security_group_manager.cidr,
             group_id := none } : SecurityRule)))) c5 with ⟨c6, r6⟩
  have t6 : TraceExtends c c6 := by
    have := traceExtends_sg_step config.security_group_manager.toResourceConf
      config.security_group_manager.name "Cosmo Manager"
      ((INTERNAL_PORTS.map (fun p =>
          ({ port := p, cidr := none, group_id := some sgu_id } :
            SecurityRule))) ++
       (EXTERNAL_PORTS.map (fun p =>
          ({ port := p, cidr := some config.security_group_manager.cidr,
             group_id := none } : SecurityRule)))) c5
      (by intro r hr
          rcases List.mem_append.mp hr with h | h <;>
            [skip; skip] <;>
            · obtain ⟨p, hp, rfl⟩ := List.mem_map.mp h
              rfl)
    rw [h6] at this; exact t5.trans this
  cases r6 with
  | error e => exact t6
  | ok u => exact t6

/-- Claim C6: every security rule the program ever submits to the cloud
adapter — in any run, under any configuration and any mocked cloud — carries
exactly one of a source CIDR and a source group id (never both, never
neither); all other submitted calls are unconstrained and satisfy the check
vacuously. -/
theorem run_security_rule_sources_exclusive (config : ManagementConf)
    (c : Cloud) :
    ∃ t, (CosmoOnOpenStackInstaller.run config c).1.events = c.events ++ t ∧
      ∀ e ∈ t, ruleSourceExclusive e = true :=
  run_traceExtends config c

/-- Witness for C6: the concrete run appends only source-exclusive events. -/
theorem run_security_rule_sources_exclusive_witness :
    ∃ t, (CosmoOnOpenStackInstaller.run testConf testCloud).1.events =
        testCloud.events ++ t ∧
      ∀ e ∈ t, ruleSourceExclusive e = true :=
  run_security_rule_sources_exclusive testConf testCloud
